import Mathlib

/-
  Verification development for the GRAFIMO motif core
  (src/grafimo/utils.py, src/grafimo/motif.py, src/grafimo/motif_set.py).

  The Python code is shallowly embedded: pandas DataFrames holding the
  motif probability matrix become `List (List ℚ)` (a list of rows),
  Python exceptions become an explicit `PyErr` error type, and methods
  that mutate `self` become functions returning the updated record (or
  an `Except`/pair carrying the raised error).
-/

namespace Grafimo

/-- Python exceptions raised by the embedded code.  `nameError` models a
lookup of an unbound identifier (Python `NameError`). -/
inductive PyErr where
  | typeError (msg : String)
  | valueError (msg : String)
  | assertionError (msg : String)
  | nameError (unboundName : String)
  | keyError (key : String)
  | indexError
  | notValidMotifMatrixError (msg : String)
  | noDataFrameError (msg : String)
  deriving DecidableEq, Repr

/-- utils.py line 17: `DNA_ALPHABET = ["A", "C", "G", "T"]`. -/
def DNA_ALPHABET : List String := ["A", "C", "G", "T"]

/-- Python `set(lst1) == set(lst2)`: the two lists have the same set of
elements (membership in one is equivalent to membership in the other). -/
def pySetEq (lst1 lst2 : List String) : Bool :=
  lst1.all (fun x => lst2.contains x) && lst2.all (fun x => lst1.contains x)

/-- utils.py lines 117-135, `isListEqual(lst1, lst2)`:
returns True when `len(lst1) == len(lst2) and set(lst1) == set(lst2)`,
False otherwise. -/
def isListEqual (lst1 lst2 : List String) : Bool :=
  if lst1.length = lst2.length ∧ pySetEq lst1 lst2 = true then true else false

/-- pandas `DataFrame.min()` on a data frame stored as a list of rows:
the Series of column-wise minima (default axis 0).  The fold of
elementwise `min` over the rows computes, in column `j`, the minimum of
all entries of column `j`. -/
def pdMin (df : List (List ℚ)) : List ℚ :=
  match df with
  | [] => []
  | r :: rs => rs.foldl (fun acc row => List.zipWith min acc row) r

/-- pandas `DataFrame.empty`: true when the frame has no rows or no
columns (for a rectangular list-of-rows: no rows, or every row empty). -/
def dfEmpty (df : List (List ℚ)) : Bool :=
  df.isEmpty || df.all (fun r => r.isEmpty)

/-- The `Motif` object of motif.py.  Field names follow the Python
attributes: `count_matrix` is `_count_matrix`, `min_val` is `_min_val`
(`none` models the `-np.inf` "unset" class default), `score_matrix` and
`pval_matrix` are `none` while the Python attribute has never been
assigned, `alphabet` is `_alphabet`, and `alphabetAttr` is the distinct
instance attribute `alphabet` that `setAlphabet` writes (motif.py line
328 assigns `self.alphabet`, not `self._alphabet`); it does not exist
(`none`) until `setAlphabet` succeeds. -/
structure Motif where
  count_matrix : List (List ℚ)
  score_matrix : Option (List (List ℚ)) := none
  pval_matrix : Option (List ℚ) := none
  min_val : Option ℚ := none
  max_val : Option ℚ := none
  scale : ℤ := -1
  offset : ℚ := 0
  width : ℤ := -1
  motif_id : String
  motif_name : String
  alphabet : List String
  alphabetAttr : Option (List String) := none
  isScaled : Bool := false
  deriving DecidableEq, Repr

/-- motif.py lines 161-203, `Motif.__init__`: validates the count
matrix (non-empty), the width (positive), the motif ID and name
(non-empty strings) and the alphabet (`isListEqual` against
`DNA_ALPHABET`), then stores them.  The `isinstance` guards always pass
in the typed embedding. -/
def motifInit (count_matrix : List (List ℚ)) (width : ℤ)
    (alphabet : List String) (motif_id motif_name : String) :
    Except PyErr Motif :=
  if dfEmpty count_matrix then
    .error (.notValidMotifMatrixError "Empty motif count matrix")
  else if width ≤ 0 then
    .error (.valueError "Forbidden motif width")
  else if motif_id = "" then
    .error (.valueError "Not valid motif ID")
  else if motif_name = "" then
    .error (.valueError "Not valid motif name")
  else if ¬ isListEqual alphabet DNA_ALPHABET then
    .error (.valueError "The motif is not built on DNA alphabet")
  else
    .ok { count_matrix := count_matrix, width := width,
          motif_id := motif_id, motif_name := motif_name,
          alphabet := alphabet }

/-- motif.py lines 338-339: `getMotif_matrix` returns `_count_matrix`. -/
def Motif.getMotif_matrix (m : Motif) : List (List ℚ) :=
  m.count_matrix

/-- motif.py lines 382-383: `getAlphabet` returns `_alphabet`. -/
def Motif.getAlphabet (m : Motif) : List String :=
  m.alphabet

/-- motif.py lines 386-387: `getIsScaled` returns `_isScaled`. -/
def Motif.getIsScaled (m : Motif) : Bool :=
  m.isScaled

/-- motif.py lines 318-328, `setAlphabet`: validates the argument
(non-empty list equal as a set, with equal length, to the DNA alphabet)
and then executes `self.alphabet = alphabet`, which creates/overwrites
the attribute named `alphabet` — not the `_alphabet` attribute that
`getAlphabet` reads. -/
def Motif.setAlphabet (m : Motif) (alphabet : List String) :
    Except PyErr Motif :=
  if alphabet.length = 0 then
    .error (.valueError "Empty motif alphabet")
  else if ¬ isListEqual alphabet DNA_ALPHABET then
    .error (.valueError "The motif is not built on DNA alphabet")
  else
    .ok { m with alphabetAttr := some alphabet }

/-- motif.py lines 331-335, `setIsScaled`: raises `AssertionError` when
`_isScaled` is already True, otherwise sets it to True. -/
def Motif.setIsScaled (m : Motif) : Except PyErr Motif :=
  if m.isScaled then
    .error (.assertionError "The motif matrix has already been scaled")
  else
    .ok { m with isScaled := true }

/-- motif.py lines 390-393, `compute_minValue`: sets `_min_val` to
`self.getMotif_matrix().min().sum()`, i.e. the sum of the column-wise
minima of the count matrix (pandas `min()` defaults to axis 0). -/
def Motif.compute_minValue (m : Motif) : Motif :=
  { m with min_val := some (pdMin m.getMotif_matrix).sum }

/-- The global environment's binding for the identifier
`allowed_matrices` read at motif.py line 404: the name is bound nowhere
in the module (line 403 defines `available_matrices` instead), so the
lookup fails. -/
def allowed_matrices_binding : Option (List String) := none

/-- motif.py lines 396-412, `Motif.print`: after the `isinstance` check
(always passing here) and the empty-string check, line 404 evaluates
`matrix not in allowed_matrices`; since `allowed_matrices` is unbound,
this raises `NameError` before any matrix can be printed.  The embedding
returns the name of the matrix that would be printed. -/
def Motif.printMotifMatrix (m : Motif) (matrix : String) :
    Except PyErr String :=
  if matrix = "" then
    .error (.valueError "Unable to guess what should be printed")
  else
    match allowed_matrices_binding with
    | none => .error (.nameError "allowed_matrices")
    | some allowed =>
      if ¬ allowed.contains matrix then
        .error (.valueError "Unknown motif matrix")
      else if matrix = "raw_counts" then .ok "count_matrix"
      else if matrix = "score_matrix" then .ok "score_matrix"
      else if matrix = "pval_matrix" then .ok "pval_matrix"
      else .error (.valueError "Unknown motif matrix")

/-- A Python value handed to `MotifSet.addMotif`: either a `Motif`
instance or some other object (carrying its type name), so that the
`isinstance(m, Motif)` test of motif_set.py line 88 can be modelled. -/
inductive PyObj where
  | motif (m : Motif)
  | other (typeName : String)
  deriving DecidableEq, Repr

/-- `isinstance(o, Motif)`. -/
def PyObj.isMotif : PyObj → Bool
  | .motif _ => true
  | .other _ => false

def PyObj.asMotif : PyObj → Option Motif
  | .motif m => some m
  | .other _ => none

/-- The `MotifSet` object of motif_set.py: the `_motifs` list and the
cached `_motifs_num` counter.  A freshly constructed set has
`motifs = []` and `motifs_num = 0` (class-attribute defaults, lines
51-52). -/
structure MotifSet where
  motifs : List Motif
  motifs_num : ℤ
  deriving DecidableEq, Repr

/-- A `MotifSet` on which `__init__` has just run and to which nothing
has been added. -/
def MotifSet.empty : MotifSet := { motifs := [], motifs_num := 0 }

/-- motif_set.py lines 72-95, `addMotif(mtfs)`.  Returns the state of
the set when the call finishes together with the exception raised, if
any.  The `isinstance(mtfs, list)` guard always passes in the typed
embedding.  When some element is not a Motif, line 90 evaluates
`type(m).__name__` for the intended `TypeError`; but `m` is the
generator-expression variable of line 88, which does not leak into the
enclosing scope in Python 3, so the lookup raises `NameError` instead
(before any mutation).  Otherwise the motifs are appended, the counter
is updated, and the two `assert` statements run on the already-mutated
state. -/
def MotifSet.addMotif (s : MotifSet) (mtfs : List PyObj) :
    MotifSet × Option PyErr :=
  if ¬ mtfs.all PyObj.isMotif then
    (s, some (.nameError "m"))
  else
    let motifs' := s.motifs ++ mtfs.filterMap PyObj.asMotif
    let oldsize := s.motifs_num
    let num' := s.motifs_num + mtfs.length
    if ¬ 0 < num' then
      (⟨motifs', num'⟩, some (.assertionError "motifs_num is not positive"))
    else if ¬ num' = oldsize + mtfs.length then
      (⟨motifs', num'⟩, some (.assertionError "size update mismatch"))
    else
      (⟨motifs', num'⟩, none)

/-- motif_set.py lines 98-116, `getMotifsList`: raises `ValueError`
when the `_motifs` list is empty (Python truthiness of a list) or when
`_motifs_num == 0`; otherwise returns the list. -/
def MotifSet.getMotifsList (s : MotifSet) : Except PyErr (List Motif) :=
  if s.motifs.isEmpty then
    .error (.valueError "The MotifSet object is empty")
  else if s.motifs_num = 0 then
    .error (.valueError "The MotifSet object is empty")
  else
    .ok s.motifs

/-- motif_set.py lines 119-135: the `size` property calls `_size`,
which asserts `_motifs_num >= 0` and returns `_motifs_num`. -/
def MotifSet.size (s : MotifSet) : Except PyErr ℤ :=
  if ¬ 0 ≤ s.motifs_num then
    .error (.assertionError "motifs_num is negative")
  else
    .ok s.motifs_num

/-- The `MotifSetIterator` object of motif_set.py lines 140-181: a
reference to the iterated set and the current `_index` (starts at 0 and
only increases, so a natural number). -/
structure MotifSetIterator where
  motifSet : MotifSet
  index : ℕ
  deriving DecidableEq, Repr

/-- motif_set.py lines 64-65, `MotifSet.__iter__`: returns a fresh
`MotifSetIterator` over the set, whose `__init__` (lines 166-172) sets
`_index = 0`. -/
def MotifSet.iter (s : MotifSet) : MotifSetIterator :=
  { motifSet := s, index := 0 }

/-- Outcome of one `__next__` call: a yielded Motif with the advanced
iterator, a `StopIteration` signal, or a raised exception. -/
inductive NextResult where
  | item (m : Motif) (it : MotifSetIterator)
  | stopSignal
  | raised (e : PyErr)
  deriving DecidableEq, Repr

/-- motif_set.py lines 175-181, `MotifSetIterator.__next__`: when
`_index < _motifSet.size` (the `size` property may assert), fetch the
list via `getMotifsList` (which may raise on an empty set), index into
it, advance `_index` and return the element; otherwise raise
`StopIteration`. -/
def msNext (it : MotifSetIterator) : NextResult :=
  match it.motifSet.size with
  | .error e => .raised e
  | .ok sz =>
    if (it.index : ℤ) < sz then
      match it.motifSet.getMotifsList with
      | .error e => .raised e
      | .ok lst =>
        match lst.get? it.index with
        | some m => .item m { motifSet := it.motifSet, index := it.index + 1 }
        | none => .raised .indexError
    else
      .stopSignal

/-- A pandas DataFrame of per-hit results, embedded as its named
columns (the field `pvalue` stands for the column named `p-value` and
`qvalue` for `q-value`, absent when `none`) together with the length of
its index (`nrows`).  In an actual DataFrame every column has exactly
`nrows` entries; that invariant is the predicate `HitsDF.wf`. -/
structure HitsDF (V : Type) where
  motif_id : List V
  motif_alt_id : List V
  sequence_name : List V
  start : List V
  stop : List V
  strand : List V
  score : List V
  pvalue : List V
  matched_sequence : List V
  haplotype_frequency : List V
  reference : List V
  qvalue : Option (List V) := none
  nrows : ℕ

/-- Well-formedness of the embedded DataFrame: each column has as many
entries as the frame has rows. -/
def HitsDF.wf {V : Type} (d : HitsDF V) : Prop :=
  d.motif_id.length = d.nrows ∧ d.motif_alt_id.length = d.nrows ∧
  d.sequence_name.length = d.nrows ∧ d.start.length = d.nrows ∧
  d.stop.length = d.nrows ∧ d.strand.length = d.nrows ∧
  d.score.length = d.nrows ∧ d.pvalue.length = d.nrows ∧
  d.matched_sequence.length = d.nrows ∧
  d.haplotype_frequency.length = d.nrows ∧
  d.reference.length = d.nrows ∧
  (∀ qs, d.qvalue = some qs → qs.length = d.nrows)

/-- Number of columns of the embedded frame (`len(data.columns)`). -/
def HitsDF.ncols {V : Type} (d : HitsDF V) : ℕ :=
  11 + (if d.qvalue.isSome then 1 else 0)

/-- utils.py lines 364-428, `list_data(data, qvalue)`: asserts that the
frame has 11 or 12 columns, extracts the eleven fixed columns, reads
the `q-value` column when the flag is set (a `KeyError` if absent),
builds the summary list (q-values appended last when the flag is set)
and asserts that every extracted column has as many entries as the
frame has rows before returning the summary. -/
def list_data {V : Type} (data : HitsDF V) (qvalue : Bool) :
    Except PyErr (List (List V)) :=
  if ¬ data.ncols ≤ 12 then .error (.assertionError "more than 12 columns")
  else if ¬ 11 ≤ data.ncols then .error (.assertionError "fewer than 11 columns")
  else
    let seqnames := data.sequence_name
    let starts := data.start
    let stops := data.stop
    let scores := data.score
    let strands := data.strand
    let motifIDs := data.motif_id
    let motifNames := data.motif_alt_id
    let pvalues := data.pvalue
    let sequences := data.matched_sequence
    let frequencies := data.haplotype_frequency
    let references := data.reference
    let qcol : Except PyErr (Option (List V)) :=
      if qvalue then
        match data.qvalue with
        | some qs => .ok (some qs)
        | none => .error (.keyError "q-value")
      else .ok none
    match qcol with
    | .error e => .error e
    | .ok qopt =>
      let summary : List (List V) :=
        match qopt with
        | some qvalues =>
          [motifIDs, motifNames, seqnames, starts, stops, strands, scores,
           pvalues, sequences, frequencies, references, qvalues]
        | none =>
          [motifIDs, motifNames, seqnames, starts, stops, strands, scores,
           pvalues, sequences, frequencies, references]
      let summary_len := motifIDs.length
      let qlenOk : Bool :=
        match qopt with
        | some qs => summary_len == qs.length
        | none => true
      if summary_len = data.nrows ∧ summary_len = motifNames.length ∧
         summary_len = seqnames.length ∧ summary_len = starts.length ∧
         summary_len = stops.length ∧ summary_len = strands.length ∧
         summary_len = scores.length ∧ summary_len = pvalues.length ∧
         summary_len = sequences.length ∧ summary_len = frequencies.length ∧
         summary_len = references.length ∧ qlenOk = true then
        .ok summary
      else
        .error (.assertionError "column length mismatch")

/-- Minimum entry of column `j` of a list-of-rows matrix (0 when the
matrix is empty). -/
def colMinimum (df : List (List ℚ)) (j : ℕ) : ℚ :=
  match df with
  | [] => 0
  | r :: rs => (rs.map (fun row => row.getD j 0)).foldl min (r.getD j 0)

/-- Sum over positions (rows) of the minimum entry in that row — the
quantity the specification text attributes to `compute_minValue`. -/
def rowMinSum (df : List (List ℚ)) : ℚ :=
  (df.map (fun r => match r with | [] => (0 : ℚ) | x :: xs => xs.foldl min x)).sum

/-- A concrete Motif whose probability matrix is a valid 2 × 4 table of
probability rows (each row non-negative and summing to 1). -/
def motifC1 : Motif :=
  { count_matrix := [[4/10, 3/10, 2/10, 1/10], [1/10, 2/10, 3/10, 4/10]],
    width := 2, motif_id := "MA0001.1", motif_name := "exampleMotif",
    alphabet := DNA_ALPHABET }

theorem length_eq_four {α : Type} (l : List α) (h : l.length = 4) :
    ∃ a b c d, l = [a, b, c, d] := by
  rcases l with _ | ⟨a, _ | ⟨b, _ | ⟨c, _ | ⟨d, _ | ⟨e, t⟩⟩⟩⟩⟩ <;>
    simp_all

theorem pdMin_fold_four (rows : List (List ℚ))
    (h : ∀ r ∈ rows, r.length = 4) (a b c d : ℚ) :
    rows.foldl (fun acc row => List.zipWith min acc row) [a, b, c, d] =
      [(rows.map (fun r => r.getD 0 0)).foldl min a,
       (rows.map (fun r => r.getD 1 0)).foldl min b,
       (rows.map (fun r => r.getD 2 0)).foldl min c,
       (rows.map (fun r => r.getD 3 0)).foldl min d] := by
  induction rows generalizing a b c d with
  | nil => simp
  | cons r rows ih =>
    obtain ⟨e, f, g, k, rfl⟩ := length_eq_four r (h r (by simp))
    simp only [List.foldl_cons, List.map_cons, List.zipWith, List.getD]
    exact ih (fun r hr => h r (List.mem_cons_of_mem _ hr)) _ _ _ _

/-- Claim C1, counterexample: for the concrete Motif `motifC1`, whose
probability matrix is a 2 × 4 table of rows summing to 1,
`compute_minValue` does not set `minValue` to the sum over positions of
each row's minimum entry (which is 1/5 here): it sets it to 3/5. -/
theorem compute_minValue_not_rowMinSum :
    (motifC1.count_matrix.all fun r => r.length = 4 ∧ r.sum = 1) = true ∧
    motifC1.compute_minValue.min_val = some (3/5) ∧
    rowMinSum motifC1.count_matrix = 1/5 ∧
    motifC1.compute_minValue.min_val ≠ some (rowMinSum motifC1.count_matrix) := by
  have h2 : motifC1.compute_minValue.min_val = some (3/5) := by
    simp only [motifC1, Motif.compute_minValue, Motif.getMotif_matrix, pdMin,
      List.foldl, List.zipWith, List.sum_cons, List.sum_nil]
    norm_num [min_def]
  have h3 : rowMinSum motifC1.count_matrix = 1/5 := by
    simp only [motifC1, rowMinSum, List.map, List.foldl, List.sum_cons,
      List.sum_nil]
    norm_num [min_def]
  refine ⟨?_, h2, h3, ?_⟩
  · simp only [motifC1, List.all_cons, List.all_nil, List.sum_cons,
      List.sum_nil, List.length_cons, List.length_nil]
    norm_num
  · rw [h2, h3]
    norm_num

/-- Claim C1 (amended): for every Motif whose probability matrix is a
non-empty width × 4 table, `compute_minValue` sets `minValue` to the
sum, over the four alphabet columns, of the minimum entry in that
column of the probability matrix (pandas `min()` reduces along axis 0,
i.e. across positions, not within a position's row). -/
theorem compute_minValue_sums_column_minima (m : Motif)
    (hne : m.count_matrix ≠ [])
    (hw : ∀ r ∈ m.count_matrix, r.length = 4) :
    m.compute_minValue.min_val =
      some (colMinimum m.count_matrix 0 + colMinimum m.count_matrix 1 +
            colMinimum m.count_matrix 2 + colMinimum m.count_matrix 3) := by
  obtain ⟨r, rs, hm⟩ : ∃ r rs, m.count_matrix = r :: rs :=
    List.exists_cons_of_ne_nil hne
  obtain ⟨a, b, c, d, hr⟩ := length_eq_four r (hw r (by rw [hm]; simp))
  have hrs : ∀ row ∈ rs, row.length = 4 := by
    intro row hrow
    exact hw row (by rw [hm]; exact List.mem_cons_of_mem _ hrow)
  simp only [Motif.compute_minValue, Motif.getMotif_matrix, pdMin, hm, hr,
    colMinimum, Option.some.injEq]
  rw [pdMin_fold_four rs hrs a b c d]
  simp [List.sum_cons, List.getD]
  ring

/-- Witness for the amended C1 theorem at the concrete Motif
`motifC1`. -/
theorem compute_minValue_sums_column_minima_witness :
    motifC1.count_matrix ≠ [] ∧
    (∀ r ∈ motifC1.count_matrix, r.length = 4) ∧
    motifC1.compute_minValue.min_val =
      some (colMinimum motifC1.count_matrix 0 + colMinimum motifC1.count_matrix 1 +
            colMinimum motifC1.count_matrix 2 + colMinimum motifC1.count_matrix 3) :=
  ⟨by decide, by decide,
   compute_minValue_sums_column_minima motifC1 (by decide) (by decide)⟩

/-- Claim C2, failing input: because motif.py line 404 reads the
unbound name `allowed_matrices` (line 403 defined `available_matrices`),
`Motif.print` raises `NameError` for every non-empty selector — the
three valid selectors included — instead of printing the requested
matrix or reporting an unknown selector. -/
theorem print_always_raises_nameError :
    motifC1.printMotifMatrix "raw_counts" = .error (.nameError "allowed_matrices") ∧
    motifC1.printMotifMatrix "score_matrix" = .error (.nameError "allowed_matrices") ∧
    motifC1.printMotifMatrix "pval_matrix" = .error (.nameError "allowed_matrices") ∧
    motifC1.printMotifMatrix "bogus_selector" = .error (.nameError "allowed_matrices") :=
  ⟨rfl, rfl, rfl, rfl⟩

/-- Claim C5: on a MotifSet to which no Motif has been added (empty
`_motifs`, zero `_motifs_num`), `getMotifsList` raises the
empty-collection `ValueError`, while the `size` property returns 0
without raising. -/
theorem emptyset_getMotifsList_fails_size_zero (s : MotifSet)
    (h1 : s.motifs = []) (h2 : s.motifs_num = 0) :
    s.getMotifsList = .error (.valueError "The MotifSet object is empty") ∧
    s.size = .ok 0 := by
  constructor
  · simp [MotifSet.getMotifsList, h1]
  · simp [MotifSet.size, h2]

/-- Witness for the C5 theorem at the freshly constructed set. -/
theorem emptyset_getMotifsList_fails_size_zero_witness :
    MotifSet.empty.motifs = [] ∧ MotifSet.empty.motifs_num = 0 ∧
    (MotifSet.empty.getMotifsList =
       .error (.valueError "The MotifSet object is empty") ∧
     MotifSet.empty.size = .ok 0) :=
  ⟨rfl, rfl, emptyset_getMotifsList_fails_size_zero MotifSet.empty rfl rfl⟩

/-- Claim C6: a Motif built by the constructor starts with `isScaled`
false; `setIsScaled` on such a Motif succeeds and changes exactly the
`isScaled` flag to true; and calling `setIsScaled` on any Motif whose
flag is already true raises the already-scaled `AssertionError`, so the
flag transitions false → true exactly once. -/
theorem setIsScaled_write_once (cm : List (List ℚ)) (w : ℤ)
    (al : List String) (mid mname : String) (m : Motif)
    (h : motifInit cm w al mid mname = .ok m) :
    m.isScaled = false ∧
    m.setIsScaled = .ok { m with isScaled := true } ∧
    (∀ m' : Motif, m'.isScaled = true →
       m'.setIsScaled =
         .error (.assertionError "The motif matrix has already been scaled")) := by
  have hf : m.isScaled = false := by
    simp only [motifInit] at h
    repeat' split at h
    any_goals exact Except.noConfusion h
    obtain rfl := Except.ok.inj h
    rfl
  refine ⟨hf, ?_, ?_⟩
  · simp [Motif.setIsScaled, hf]
  · intro m' hm'
    simp [Motif.setIsScaled, hm']

/-- Witness for the C6 theorem: a concrete constructor call returning
`motifC1`. -/
theorem setIsScaled_write_once_witness :
    motifInit [[4/10, 3/10, 2/10, 1/10], [1/10, 2/10, 3/10, 4/10]] 2
        DNA_ALPHABET "MA0001.1" "exampleMotif" = .ok motifC1 ∧
    (motifC1.isScaled = false ∧
     motifC1.setIsScaled = .ok { motifC1 with isScaled := true } ∧
     (∀ m' : Motif, m'.isScaled = true →
        m'.setIsScaled =
          .error (.assertionError "The motif matrix has already been scaled"))) :=
  ⟨rfl,
   setIsScaled_write_once [[4/10, 3/10, 2/10, 1/10], [1/10, 2/10, 3/10, 4/10]]
     2 DNA_ALPHABET "MA0001.1" "exampleMotif" motifC1 rfl⟩

/-- Claim C10: a successful `setAlphabet` call writes only the
`alphabet` instance attribute (the `alphabetAttr` field here), so the
`_alphabet` field read by `getAlphabet` — and every other field — is
unchanged. -/
theorem setAlphabet_preserves_getAlphabet (m : Motif) (a : List String)
    (m' : Motif) (h : m.setAlphabet a = .ok m') :
    m'.getAlphabet = m.getAlphabet ∧
    m' = { m with alphabetAttr := some a } := by
  simp only [Motif.setAlphabet] at h
  split at h
  · exact absurd h (by simp)
  split at h
  · exact absurd h (by simp)
  obtain rfl := (Except.ok.injEq _ _).mp h
  exact ⟨rfl, rfl⟩

/-- Witness for the C10 theorem: `setAlphabet` with the reversed DNA
alphabet on `motifC1`. -/
theorem setAlphabet_preserves_getAlphabet_witness :
    motifC1.setAlphabet ["T", "G", "C", "A"] =
      .ok { motifC1 with alphabetAttr := some ["T", "G", "C", "A"] } ∧
    (({ motifC1 with
        alphabetAttr := some ["T", "G", "C", "A"] } : Motif).getAlphabet =
       motifC1.getAlphabet ∧
     ({ motifC1 with alphabetAttr := some ["T", "G", "C", "A"] } : Motif) =
       { motifC1 with alphabetAttr := some ["T", "G", "C", "A"] }) :=
  ⟨rfl, setAlphabet_preserves_getAlphabet motifC1 ["T", "G", "C", "A"] _ rfl⟩

/-- Claim C3, counterexample: on the freshly constructed (empty)
MotifSet, `addMotif([])` does not succeed: after appending nothing the
postcondition `assert self._motifs_num > 0` (motif_set.py line 94)
fails, because the counter is still 0, so the call raises
`AssertionError` instead of returning normally. -/
theorem addMotif_nil_on_empty_set_fails :
    MotifSet.empty.addMotif [] =
      (MotifSet.empty, some (.assertionError "motifs_num is not positive")) ∧
    (MotifSet.empty.addMotif []).2 ≠ none :=
  ⟨rfl, by simp [MotifSet.addMotif, MotifSet.empty]⟩

/-- Claim C3 (amended): for every MotifSet whose counter matches its
list, `addMotif([])` succeeds and leaves the state unchanged provided
the set already holds at least one Motif (on an empty set the
postcondition assertion fails instead); `addMotif([m1, m2])` raises no
exception, increases `count` by exactly 2, and appends in order, so the
element at the old count is `m1`. -/
theorem addMotif_batch_append (s : MotifSet) (m1 m2 : Motif)
    (h : s.motifs_num = (s.motifs.length : ℤ)) :
    (0 < s.motifs_num → s.addMotif [] = (s, none)) ∧
    s.addMotif [.motif m1, .motif m2] =
      ({ motifs := s.motifs ++ [m1, m2],
         motifs_num := s.motifs_num + 2 }, none) ∧
    (s.motifs ++ [m1, m2]).getD s.motifs.length m2 = m1 := by
  refine ⟨?_, ?_, ?_⟩
  · intro hpos
    simp [MotifSet.addMotif, hpos, Int.lt_iff_add_one_le]
  · have hnn : (0 : ℤ) ≤ s.motifs_num := by
      rw [h]; exact Int.natCast_nonneg _
    simp only [MotifSet.addMotif, List.all_cons, List.all_nil,
      PyObj.isMotif, Bool.and_true, Bool.and_self, Bool.not_true,
      List.filterMap, PyObj.asMotif, List.length_cons, List.length_nil]
    norm_num
    omega
  · rw [List.getD_append_right s.motifs [m1, m2] m2 s.motifs.length
      (le_refl _)]
    simp

/-- Witness for the amended C3 theorem on a one-element MotifSet. -/
theorem addMotif_batch_append_witness :
    (MotifSet.mk [motifC1] 1).motifs_num =
        ((MotifSet.mk [motifC1] 1).motifs.length : ℤ) ∧
    ((0 < (MotifSet.mk [motifC1] 1).motifs_num →
        (MotifSet.mk [motifC1] 1).addMotif [] = (MotifSet.mk [motifC1] 1, none)) ∧
     (MotifSet.mk [motifC1] 1).addMotif [.motif motifC1, .motif motifC1] =
       ({ motifs := [motifC1] ++ [motifC1, motifC1], motifs_num := 1 + 2 }, none) ∧
     ([motifC1] ++ [motifC1, motifC1]).getD 1 motifC1 = motifC1) := by
  have happ : ((MotifSet.mk [motifC1] 1).motifs ++ [motifC1, motifC1]).getD
      (MotifSet.mk [motifC1] 1).motifs.length motifC1 = motifC1 :=
    (addMotif_batch_append (MotifSet.mk [motifC1] 1) motifC1 motifC1 rfl).2.2
  exact ⟨rfl, (addMotif_batch_append (MotifSet.mk [motifC1] 1) motifC1
    motifC1 rfl).1, (addMotif_batch_append (MotifSet.mk [motifC1] 1) motifC1
    motifC1 rfl).2.1, happ⟩

/-- Claim C4: when the batch contains an element that is not a Motif,
`addMotif` fails before any mutation, so the set is unchanged; but the
exception raised is a `NameError` (the generator-expression variable
`m` of motif_set.py line 88 is not in scope at line 90 where
`type(m).__name__` is evaluated for the intended `TypeError`). -/
theorem addMotif_wrong_type_raises_nameError (s : MotifSet)
    (batch : List PyObj) (h : ∃ o ∈ batch, o.isMotif = false) :
    s.addMotif batch = (s, some (.nameError "m")) := by
  obtain ⟨o, ho, hno⟩ := h
  have : ¬ batch.all PyObj.isMotif = true := by
    intro hall
    rw [List.all_eq_true] at hall
    exact absurd (hall o ho) (by simp [hno])
  simp [MotifSet.addMotif, this]

/-- Witness for the C4 theorem: adding a batch holding an `int` to the
empty set leaves it unchanged and raises `NameError`. -/
theorem addMotif_wrong_type_raises_nameError_witness :
    (∃ o ∈ [PyObj.other "int"], o.isMotif = false) ∧
    MotifSet.empty.addMotif [PyObj.other "int"] =
      (MotifSet.empty, some (.nameError "m")) :=
  ⟨⟨PyObj.other "int", by simp, rfl⟩,
   addMotif_wrong_type_raises_nameError MotifSet.empty [PyObj.other "int"]
     ⟨PyObj.other "int", by simp, rfl⟩⟩

/-- Claim C7: on a MotifSet whose counter matches its list, `__iter__`
returns a fresh cursor at index 0; a cursor at index `k` yields the
`k`-th contained Motif (insertion order) and advances to `k + 1` while
`k` is in range, and signals `StopIteration` — not a domain error — as
soon as `k` reaches the length, which on an empty set is immediately at
index 0. -/
theorem iteration_insertion_order (s : MotifSet)
    (h : s.motifs_num = (s.motifs.length : ℤ)) :
    s.iter = { motifSet := s, index := 0 } ∧
    (∀ (k : ℕ) (hk : k < s.motifs.length),
       msNext { motifSet := s, index := k } =
         .item (s.motifs.get ⟨k, hk⟩) { motifSet := s, index := k + 1 }) ∧
    (∀ k : ℕ, s.motifs.length ≤ k →
       msNext { motifSet := s, index := k } = .stopSignal) := by
  have hnn : (0 : ℤ) ≤ s.motifs_num := by
    rw [h]; exact Int.natCast_nonneg _
  have hsz : s.size = .ok s.motifs_num := by
    simp [MotifSet.size, hnn]
  refine ⟨rfl, ?_, ?_⟩
  · intro k hk
    have hpos : 0 < s.motifs.length := Nat.lt_of_le_of_lt (Nat.zero_le _) hk
    have hne : s.motifs ≠ [] := List.ne_nil_of_length_pos hpos
    have hnum : ¬ s.motifs_num = 0 := by rw [h]; exact_mod_cast Nat.pos_iff_ne_zero.mp hpos
    have hlst : s.getMotifsList = .ok s.motifs := by
      simp [MotifSet.getMotifsList, hne, hnum]
    have hlt : (k : ℤ) < s.motifs_num := by rw [h]; exact_mod_cast hk
    simp [msNext, hsz, hlst, hlt, List.get?_eq_get hk,
      List.getElem?_eq_getElem hk]
  · intro k hk
    have hge : ¬ (k : ℤ) < s.motifs_num := by
      rw [h]; exact_mod_cast Nat.not_lt.mpr hk
    simp [msNext, hsz, hge]

/-- Witness for the C7 theorem on a two-element set (and, through the
`stopSignal` conjunct with the counter at the length, the end-of-range
behavior). -/
theorem iteration_insertion_order_witness :
    (MotifSet.mk [motifC1, motifC1] 2).motifs_num =
        ((MotifSet.mk [motifC1, motifC1] 2).motifs.length : ℤ) ∧
    ((MotifSet.mk [motifC1, motifC1] 2).iter =
       { motifSet := MotifSet.mk [motifC1, motifC1] 2, index := 0 } ∧
     (∀ (k : ℕ) (hk : k < (MotifSet.mk [motifC1, motifC1] 2).motifs.length),
        msNext { motifSet := MotifSet.mk [motifC1, motifC1] 2, index := k } =
          .item ((MotifSet.mk [motifC1, motifC1] 2).motifs.get ⟨k, hk⟩)
            { motifSet := MotifSet.mk [motifC1, motifC1] 2, index := k + 1 }) ∧
     (∀ k : ℕ, (MotifSet.mk [motifC1, motifC1] 2).motifs.length ≤ k →
        msNext { motifSet := MotifSet.mk [motifC1, motifC1] 2, index := k } =
          .stopSignal)) :=
  ⟨rfl, iteration_insertion_order (MotifSet.mk [motifC1, motifC1] 2) rfl⟩

theorem pySetEq_iff (l1 l2 : List String) :
    pySetEq l1 l2 = true ↔ ∀ x, x ∈ l1 ↔ x ∈ l2 := by
  simp only [pySetEq, Bool.and_eq_true, List.all_eq_true]
  constructor
  · rintro ⟨h1, h2⟩ x
    constructor
    · intro hx
      simpa using h1 x hx
    · intro hx
      simpa using h2 x hx
  · intro hx
    constructor
    · intro x hxm
      simpa using (hx x).mp hxm
    · intro x hxm
      simpa using (hx x).mpr hxm

theorem isListEqual_iff (l1 l2 : List String) :
    isListEqual l1 l2 = true ↔
      (l1.length = l2.length ∧ ∀ x, x ∈ l1 ↔ x ∈ l2) := by
  constructor
  · intro h
    by_cases hc : l1.length = l2.length ∧ pySetEq l1 l2 = true
    · exact ⟨hc.1, (pySetEq_iff l1 l2).mp hc.2⟩
    · simp [isListEqual, hc] at h
  · rintro ⟨h1, h2⟩
    simp [isListEqual, h1, (pySetEq_iff l1 l2).mpr h2]

/-- Claim C8, counterexample: the alphabet `["A","A","C","G","T"]` has
the same element set as the DNA alphabet (compared independent of
ordering), yet `isListEqual` — which also compares lengths — returns
false on it, so Motif construction rejects it with the invalid-alphabet
error even though its element set does not differ from
`{A, C, G, T}`. -/
theorem alphabet_same_set_still_rejected :
    (∀ x, x ∈ ["A", "A", "C", "G", "T"] ↔ x ∈ DNA_ALPHABET) ∧
    pySetEq ["A", "A", "C", "G", "T"] DNA_ALPHABET = true ∧
    isListEqual ["A", "A", "C", "G", "T"] DNA_ALPHABET = false ∧
    motifInit [[1, 0, 0, 0]] 1 ["A", "A", "C", "G", "T"] "MA0002.1" "m2" =
      .error (.valueError "The motif is not built on DNA alphabet") := by
  refine ⟨?_, by decide, by decide, rfl⟩
  intro x
  simp [DNA_ALPHABET]

/-- Claim C8 (amended): `isListEqual` returns true on the two permuted
DNA alphabets and false on the 3-element prefix; and, with the other
constructor arguments valid, Motif construction rejects with the
invalid-alphabet error exactly those alphabets that differ from the
4-symbol DNA alphabet in element set or in length (`isListEqual`
compares lengths as well as sets). -/
theorem isListEqual_and_alphabet_rejection (cm : List (List ℚ)) (w : ℤ)
    (al : List String) (mid mname : String) (hcm : dfEmpty cm = false)
    (hw : 0 < w) (hid : ¬ mid = "") (hnm : ¬ mname = "") :
    isListEqual ["A", "C", "G", "T"] ["T", "G", "C", "A"] = true ∧
    isListEqual ["A", "C", "G"] ["A", "C", "G", "T"] = false ∧
    (motifInit cm w al mid mname =
        .error (.valueError "The motif is not built on DNA alphabet") ↔
      ¬ (al.length = 4 ∧ ∀ x, x ∈ al ↔ x ∈ DNA_ALPHABET)) := by
  refine ⟨by decide, by decide, ?_⟩
  have hlen : DNA_ALPHABET.length = 4 := rfl
  have hiff := isListEqual_iff al DNA_ALPHABET
  rw [hlen] at hiff
  simp only [motifInit, hcm, Bool.false_eq_true, if_false,
    if_neg (by omega : ¬ w ≤ 0), if_neg hid, if_neg hnm]
  by_cases hb : isListEqual al DNA_ALPHABET = true
  · rw [if_neg (not_not_intro hb)]
    constructor
    · intro hc
      exact Except.noConfusion hc
    · intro hn
      exact absurd (hiff.mp hb) hn
  · rw [if_pos hb]
    refine ⟨fun _ => ?_, fun _ => rfl⟩
    rw [← hiff]
    exact hb

/-- Witness for the amended C8 theorem: valid matrix, width, id and
name, with the reversed DNA alphabet. -/
theorem isListEqual_and_alphabet_rejection_witness :
    dfEmpty [[1, 0, 0, 0]] = false ∧ (0 : ℤ) < 1 ∧
    ¬ "MA0002.1" = "" ∧ ¬ "m2" = "" ∧
    (isListEqual ["A", "C", "G", "T"] ["T", "G", "C", "A"] = true ∧
     isListEqual ["A", "C", "G"] ["A", "C", "G", "T"] = false ∧
     (motifInit [[1, 0, 0, 0]] 1 ["T", "G", "C", "A"] "MA0002.1" "m2" =
         .error (.valueError "The motif is not built on DNA alphabet") ↔
       ¬ ((["T", "G", "C", "A"] : List String).length = 4 ∧
          ∀ x, x ∈ (["T", "G", "C", "A"] : List String) ↔ x ∈ DNA_ALPHABET))) :=
  ⟨rfl, by decide, by decide, by decide,
   isListEqual_and_alphabet_rejection [[1, 0, 0, 0]] 1 ["T", "G", "C", "A"]
     "MA0002.1" "m2" rfl (by decide) (by decide) (by decide)⟩

/-- Claim C9: on a well-formed per-hit DataFrame, `list_data` returns
exactly 11 column-lists — motif id, motif name, sequence name, start,
stop, strand, score, p-value, matched sequence, haplotype frequency,
reference — when the q-value flag is false, and exactly 12 with the
q-value column appended last when the flag is true; every returned
column-list has as many entries as the frame has rows. -/
theorem list_data_column_contract {V : Type} (data : HitsDF V)
    (h : data.wf) :
    (list_data data false =
       .ok [data.motif_id, data.motif_alt_id, data.sequence_name,
            data.start, data.stop, data.strand, data.score, data.pvalue,
            data.matched_sequence, data.haplotype_frequency,
            data.reference] ∧
     ([data.motif_id, data.motif_alt_id, data.sequence_name, data.start,
       data.stop, data.strand, data.score, data.pvalue,
       data.matched_sequence, data.haplotype_frequency,
       data.reference] : List (List V)).length = 11 ∧
     (∀ c ∈ ([data.motif_id, data.motif_alt_id, data.sequence_name,
              data.start, data.stop, data.strand, data.score, data.pvalue,
              data.matched_sequence, data.haplotype_frequency,
              data.reference] : List (List V)), c.length = data.nrows)) ∧
    (∀ qs, data.qvalue = some qs →
       list_data data true =
         .ok [data.motif_id, data.motif_alt_id, data.sequence_name,
              data.start, data.stop, data.strand, data.score, data.pvalue,
              data.matched_sequence, data.haplotype_frequency,
              data.reference, qs] ∧
       ([data.motif_id, data.motif_alt_id, data.sequence_name, data.start,
         data.stop, data.strand, data.score, data.pvalue,
         data.matched_sequence, data.haplotype_frequency, data.reference,
         qs] : List (List V)).length = 12 ∧
       (∀ c ∈ ([data.motif_id, data.motif_alt_id, data.sequence_name,
                data.start, data.stop, data.strand, data.score,
                data.pvalue, data.matched_sequence,
                data.haplotype_frequency, data.reference,
                qs] : List (List V)), c.length = data.nrows)) := by
  obtain ⟨e1, e2, e3, e4, e5, e6, e7, e8, e9, e10, e11, eq⟩ := h
  refine ⟨⟨?_, rfl, ?_⟩, ?_⟩
  · cases hq : data.qvalue with
    | none => simp [list_data, HitsDF.ncols, hq, e1, e2, e3, e4, e5, e6,
        e7, e8, e9, e10, e11]
    | some qs => simp [list_data, HitsDF.ncols, hq, e1, e2, e3, e4, e5,
        e6, e7, e8, e9, e10, e11]
  · intro c hc
    simp only [List.mem_cons, List.not_mem_nil, or_false] at hc
    rcases hc with rfl | rfl | rfl | rfl | rfl | rfl | rfl | rfl | rfl |
      rfl | rfl
    exacts [e1, e2, e3, e4, e5, e6, e7, e8, e9, e10, e11]
  · intro qs hqs
    have eqs : qs.length = data.nrows := eq qs hqs
    refine ⟨?_, rfl, ?_⟩
    · simp [list_data, HitsDF.ncols, hqs, e1, e2, e3, e4, e5, e6, e7, e8,
        e9, e10, e11, eqs]
    · intro c hc
      simp only [List.mem_cons, List.not_mem_nil, or_false] at hc
      rcases hc with rfl | rfl | rfl | rfl | rfl | rfl | rfl | rfl | rfl |
        rfl | rfl | rfl
      exacts [e1, e2, e3, e4, e5, e6, e7, e8, e9, e10, e11, eqs]

/-- A concrete one-row per-hit frame over `ℕ` with a q-value column,
used to witness the C9 theorem. -/
def hitsEx : HitsDF ℕ :=
  { motif_id := [1], motif_alt_id := [2], sequence_name := [3],
    start := [4], stop := [5], strand := [6], score := [7],
    pvalue := [8], matched_sequence := [9], haplotype_frequency := [10],
    reference := [11], qvalue := some [12], nrows := 1 }

/-- Witness for the C9 theorem at the concrete frame `hitsEx`. -/
theorem list_data_column_contract_witness :
    hitsEx.wf ∧
    ((list_data hitsEx false =
        .ok [hitsEx.motif_id, hitsEx.motif_alt_id, hitsEx.sequence_name,
             hitsEx.start, hitsEx.stop, hitsEx.strand, hitsEx.score,
             hitsEx.pvalue, hitsEx.matched_sequence,
             hitsEx.haplotype_frequency, hitsEx.reference] ∧
      ([hitsEx.motif_id, hitsEx.motif_alt_id, hitsEx.sequence_name,
        hitsEx.start, hitsEx.stop, hitsEx.strand, hitsEx.score,
        hitsEx.pvalue, hitsEx.matched_sequence,
        hitsEx.haplotype_frequency,
        hitsEx.reference] : List (List ℕ)).length = 11 ∧
      (∀ c ∈ ([hitsEx.motif_id, hitsEx.motif_alt_id, hitsEx.sequence_name,
               hitsEx.start, hitsEx.stop, hitsEx.strand, hitsEx.score,
               hitsEx.pvalue, hitsEx.matched_sequence,
               hitsEx.haplotype_frequency,
               hitsEx.reference] : List (List ℕ)),
         c.length = hitsEx.nrows)) ∧
     (∀ qs, hitsEx.qvalue = some qs →
        list_data hitsEx true =
          .ok [hitsEx.motif_id, hitsEx.motif_alt_id, hitsEx.sequence_name,
               hitsEx.start, hitsEx.stop, hitsEx.strand, hitsEx.score,
               hitsEx.pvalue, hitsEx.matched_sequence,
               hitsEx.haplotype_frequency, hitsEx.reference, qs] ∧
        ([hitsEx.motif_id, hitsEx.motif_alt_id, hitsEx.sequence_name,
          hitsEx.start, hitsEx.stop, hitsEx.strand, hitsEx.score,
          hitsEx.pvalue, hitsEx.matched_sequence,
          hitsEx.haplotype_frequency, hitsEx.reference,
          qs] : List (List ℕ)).length = 12 ∧
        (∀ c ∈ ([hitsEx.motif_id, hitsEx.motif_alt_id,
                 hitsEx.sequence_name, hitsEx.start, hitsEx.stop,
                 hitsEx.strand, hitsEx.score, hitsEx.pvalue,
                 hitsEx.matched_sequence, hitsEx.haplotype_frequency,
                 hitsEx.reference, qs] : List (List ℕ)),
           c.length = hitsEx.nrows))) :=
  ⟨⟨rfl, rfl, rfl, rfl, rfl, rfl, rfl, rfl, rfl, rfl, rfl,
    fun qs hqs => by cases hqs; rfl⟩,
   list_data_column_contract hitsEx
     ⟨rfl, rfl, rfl, rfl, rfl, rfl, rfl, rfl, rfl, rfl, rfl,
      fun qs hqs => by cases hqs; rfl⟩⟩

end Grafimo
